import Mathlib

/-!
Shallow embedding of `rust-zerotier-core/src/certificate.rs` (ZeroTierOne
Rust core certificate module) and proofs about its certificate data model:
serial numbers, name-field serialization, unique-ID secret generation,
subject/certificate marshalling, and the decode/verify error taxonomy.

Bytes are modelled as `Fin 256`, Rust `Vec<u8>` / `[u8; N]` buffers as
`List Byte`, C `int` values as `Int`, and fallible operations as `Except`.
The external cryptographic engine (`ZT_Certificate_*` calls) is an
external collaborator: each operation that consults it takes the engine's
report as an explicit parameter.
-/

namespace ZTC

/-- A byte (Rust `u8`). -/
abbrev Byte := Fin 256

/-- `Vec::resize(n, 0)` on a byte vector: truncate to `n` or extend with
zero bytes up to length `n`. Also used to normalize an engine-written
fixed-size buffer to its declared capacity. -/
def resize (l : List Byte) (n : Nat) : List Byte :=
  l.take n ++ List.replicate (n - l.length) 0

/-- Result codes of the crate (`ResultCode` lives in the crate root, outside
this file's source; only the variants used by `certificate.rs` are needed). -/
inductive ResultCode where
  | ErrorBadParameter
  | ErrorInternalNonFatal
  deriving DecidableEq

/-! ## CertificateSerialNo -/

/-- `CertificateSerialNo::new()`: the all-zero 48-byte serial number. -/
def CertificateSerialNo.new : List Byte := List.replicate 48 0

/-- `impl From<&[u8]> for CertificateSerialNo`: start from the zero serial,
copy the first `min (v.len()) 48` bytes of `v` over its prefix. -/
def CertificateSerialNo.fromSlice (v : List Byte) : List Byte :=
  let l := if v.length > 48 then 48 else v.length
  v.take l ++ CertificateSerialNo.new.drop l

/-! ### Hex codec (the `hex` crate: lowercase encode, case-insensitive decode) -/

/-- Lowercase hex digit for a nibble value (`0`-`9`, `a`-`f`). -/
def hexDigitChar (n : Nat) : Char :=
  if n < 10 then Char.ofNat (48 + n) else Char.ofNat (87 + n)

/-- `hex::encode`: two lowercase hex digits per byte, high nibble first. -/
def hexEncode : List Byte → List Char
  | [] => []
  | b :: rest => hexDigitChar (b.val / 16) :: hexDigitChar (b.val % 16) :: hexEncode rest

/-- Value of one hex digit (accepting both cases, like `hex::decode`). -/
def hexDigitVal (c : Char) : Option (Fin 16) :=
  if h : 48 ≤ c.toNat ∧ c.toNat ≤ 57 then some ⟨c.toNat - 48, by omega⟩
  else if h : 97 ≤ c.toNat ∧ c.toNat ≤ 102 then some ⟨c.toNat - 87, by omega⟩
  else if h : 65 ≤ c.toNat ∧ c.toNat ≤ 70 then some ⟨c.toNat - 55, by omega⟩
  else none

/-- `hex::decode`: fails on an odd-length input or a non-hex digit. -/
def hexDecode : List Char → Option (List Byte)
  | [] => some []
  | [_] => none
  | c1 :: c2 :: rest =>
    match hexDigitVal c1, hexDigitVal c2, hexDecode rest with
    | some h, some l, some tail =>
      some (⟨h.val * 16 + l.val, by have := h.isLt; have := l.isLt; omega⟩ :: tail)
    | _, _, _ => none

/-- `CertificateSerialNo::to_string` (`ToString` impl): `hex::encode(self.0)`. -/
def CertificateSerialNo.to_string (sn : List Byte) : List Char := hexEncode sn

/-- `CertificateSerialNo::new_from_string`: hex-decode, `BadParameter` on a
decode error, otherwise build the serial via the `From<&[u8]>` impl. -/
def CertificateSerialNo.new_from_string (s : List Char) :
    Except ResultCode (List Byte) :=
  match hexDecode s with
  | none => .error .ErrorBadParameter
  | some b => .ok (CertificateSerialNo.fromSlice b)

/-! ## CertificateName -/

/-- The Rust-side `CertificateName`: twelve free-form string fields, each
modelled at the byte level (`String::len` and the serialization below both
operate on bytes). -/
structure CertificateName where
  serialNo : List Byte
  commonName : List Byte
  country : List Byte
  organization : List Byte
  unit : List Byte
  locality : List Byte
  province : List Byte
  streetAddress : List Byte
  postalCode : List Byte
  email : List Byte
  url : List Byte
  host : List Byte
  deriving DecidableEq

/-- The engine-facing `ZT_Certificate_Name`: twelve fixed-size 128-byte
`c_char` buffers. -/
structure ZT_Certificate_Name where
  serialNo : List Byte
  commonName : List Byte
  country : List Byte
  organization : List Byte
  unit : List Byte
  locality : List Byte
  province : List Byte
  streetAddress : List Byte
  postalCode : List Byte
  email : List Byte
  url : List Byte
  host : List Byte
  deriving DecidableEq

/-- `CertificateName::str_to_cert_cstr(s, cs)`: on an empty string store a
null at index 0; otherwise clamp the length to 126, copy that prefix of `s`
into the front of `cs`, and store a null at index `l + 1`. -/
def str_to_cert_cstr (s : List Byte) (cs : List Byte) : List Byte :=
  if s.length = 0 then cs.set 0 0
  else
    let l := if s.length > 126 then 126 else s.length
    (s.take l ++ cs.drop l).set (l + 1) 0

/-- The field buffer produced inside `CertificateName::to_capi`: the struct
is `zeroed()`, so each field starts as 128 zero bytes before
`str_to_cert_cstr` runs on it. -/
def nameFieldBuffer (s : List Byte) : List Byte :=
  str_to_cert_cstr s (List.replicate 128 0)

/-- `CertificateName::to_capi`: serialize every field into the zeroed
engine struct via `str_to_cert_cstr`. -/
def CertificateName.to_capi (n : CertificateName) : ZT_Certificate_Name where
  serialNo := str_to_cert_cstr n.serialNo (List.replicate 128 0)
  commonName := str_to_cert_cstr n.commonName (List.replicate 128 0)
  country := str_to_cert_cstr n.country (List.replicate 128 0)
  organization := str_to_cert_cstr n.organization (List.replicate 128 0)
  unit := str_to_cert_cstr n.unit (List.replicate 128 0)
  locality := str_to_cert_cstr n.locality (List.replicate 128 0)
  province := str_to_cert_cstr n.province (List.replicate 128 0)
  streetAddress := str_to_cert_cstr n.streetAddress (List.replicate 128 0)
  postalCode := str_to_cert_cstr n.postalCode (List.replicate 128 0)
  email := str_to_cert_cstr n.email (List.replicate 128 0)
  url := str_to_cert_cstr n.url (List.replicate 128 0)
  host := str_to_cert_cstr n.host (List.replicate 128 0)

/-- Modelled from the spec: the crate-root helper `cstr_to_string(ptr, max_len)`
(not under src/) reads a C string, stopping at the first null byte or at
`max_len` bytes. -/
def cstr_to_string (b : List Byte) (maxLen : Nat) : List Byte :=
  (b.takeWhile (fun x => x != 0)).take maxLen

/-- `CertificateName::new_from_capi`: read every 128-byte field back as a
bounded C string (`CERTIFICATE_MAX_STRING_LENGTH - 1 = 126`). -/
def CertificateName.new_from_capi (cn : ZT_Certificate_Name) : CertificateName where
  serialNo := cstr_to_string cn.serialNo 126
  commonName := cstr_to_string cn.commonName 126
  country := cstr_to_string cn.country 126
  organization := cstr_to_string cn.organization 126
  unit := cstr_to_string cn.unit 126
  locality := cstr_to_string cn.locality 126
  province := cstr_to_string cn.province 126
  streetAddress := cstr_to_string cn.streetAddress 126
  postalCode := cstr_to_string cn.postalCode 126
  email := cstr_to_string cn.email 126
  url := cstr_to_string cn.url 126
  host := cstr_to_string cn.host 126

/-! ## Unique-ID secret generation -/

/-- `CertificateUniqueIdType` (one variant today). -/
inductive CertificateUniqueIdType where
  | NistP384
  deriving DecidableEq

/-- `CertificateSubjectUniqueIdSecret`. The Rust field `private` is a Lean
keyword, hence `private_` (cf. the Rust field `type_`). -/
structure CertificateSubjectUniqueIdSecret where
  public : List Byte
  private_ : List Byte
  type_ : CertificateUniqueIdType
  deriving DecidableEq

/-- `CERTIFICATE_UNIQUE_ID_CREATE_BUF_SIZE`. -/
def CERTIFICATE_UNIQUE_ID_CREATE_BUF_SIZE : Nat := 128

/-- Report of one engine call `ZT_Certificate_newSubjectUniqueId`: its
return code, the bytes it wrote into the two 128-byte scratch buffers, and
the sizes it stored through the two in/out size pointers. -/
structure KeygenReport where
  ret : Int
  publicBuf : List Byte
  privateBuf : List Byte
  publicSize : Nat
  privateSize : Nat

/-- `CertificateSubjectUniqueIdSecret::new(t)`. A `none` result models a
Rust panic (no value is ever returned to the caller): either the explicit
`panic!` taken when the engine returns nonzero, or the slice bounds panic
of `unique_id[0..unique_id_size]` when a reported size exceeds the 128-byte
scratch buffer. -/
def CertificateSubjectUniqueIdSecret.new (t : CertificateUniqueIdType)
    (engine : CertificateUniqueIdType → KeygenReport) :
    Option CertificateSubjectUniqueIdSecret :=
  let r := engine t
  if r.ret ≠ 0 then none
  else if CERTIFICATE_UNIQUE_ID_CREATE_BUF_SIZE < r.publicSize ∨
      CERTIFICATE_UNIQUE_ID_CREATE_BUF_SIZE < r.privateSize then none
  else some
    { public := (resize r.publicBuf CERTIFICATE_UNIQUE_ID_CREATE_BUF_SIZE).take r.publicSize
      private_ := (resize r.privateBuf CERTIFICATE_UNIQUE_ID_CREATE_BUF_SIZE).take r.privateSize
      type_ := t }

/-! ## Identities, networks, subjects (and their engine-facing forms) -/

/-- Modelled from the spec: the identity collaborator exposes the
capability `hasPrivateKey(identity) -> bool` (spec section 6); `identity.rs`
is not under src/, and only that capability is consulted here. -/
structure Identity where
  hasPrivate : Bool
  deriving DecidableEq

/-- Modelled from the spec: a network locator is an opaque collaborator
value (its cryptography lives outside this module). -/
structure Locator where
  data : List Byte
  deriving DecidableEq

/-- `Fingerprint`: an address plus a content hash. -/
structure Fingerprint where
  address : Nat
  hash : List Byte
  deriving DecidableEq

/-- `CertificateNetwork`. -/
structure CertificateNetwork where
  id : Nat
  controller : Fingerprint
  deriving DecidableEq

/-- The engine-facing `ZT_Certificate_Network`. -/
structure ZT_Certificate_Network where
  id : Nat
  controller_address : Nat
  controller_hash : List Byte
  deriving DecidableEq

/-- `CertificateNetwork::new_from_capi`. -/
def CertificateNetwork.new_from_capi (cn : ZT_Certificate_Network) : CertificateNetwork where
  id := cn.id
  controller := { address := cn.controller_address, hash := cn.controller_hash }

/-- The engine-facing `ZT_Certificate_Identity`: two raw pointers, each
modelled as an `Option` (`none` is a null pointer). -/
structure ZT_Certificate_Identity where
  identity : Option Identity
  locator : Option Locator
  deriving DecidableEq

/-- `CertificateIdentity`: a required identity plus an optional locator. -/
structure CertificateIdentity where
  identity : Identity
  locator : Option Locator
  deriving DecidableEq

/-- `CertificateIdentity::new_from_capi`: a null identity pointer yields
`None`; otherwise the identity (and the locator when non-null) is cloned. -/
def CertificateIdentity.new_from_capi (ci : ZT_Certificate_Identity) :
    Option CertificateIdentity :=
  match ci.identity with
  | none => none
  | some id => some { identity := id, locator := ci.locator }

/-- `CertificateSubject`. Serial-number references and URLs are byte
lists. -/
structure CertificateSubject where
  timestamp : Int
  identities : List CertificateIdentity
  networks : List CertificateNetwork
  certificates : List (List Byte)
  updateURLs : List (List Byte)
  name : CertificateName
  uniqueId : List Byte
  uniqueIdProofSignature : List Byte
  deriving DecidableEq

/-- The engine-facing `ZT_Certificate_Subject`: every repeated field is a
raw pointer (`none` models null) plus an element count. -/
structure ZT_Certificate_Subject where
  timestamp : Int
  identities : Option (List ZT_Certificate_Identity)
  identityCount : Nat
  networks : Option (List ZT_Certificate_Network)
  networkCount : Nat
  certificates : Option (List (List Byte))
  certificateCount : Nat
  updateURLs : Option (List (List Byte))
  updateURLCount : Nat
  name : ZT_Certificate_Name
  uniqueId : List Byte
  uniqueIdProofSignature : List Byte

/-- `std::slice::from_raw_parts(ptr, count)` guarded by the source's
`!ptr.is_null() && count > 0` test: a null pointer or a zero count reads
nothing, otherwise the first `count` array elements are read. -/
def readArray {α : Type} (p : Option (List α)) (count : Nat) : List α :=
  match p with
  | none => []
  | some l => if 0 < count then l.take count else []

/-- `copy_nonoverlapping(*i, ctmp, 48)` into a 48-byte temporary: the first
48 bytes behind the pointer. -/
def copy48 (p : List Byte) : List Byte := resize p 48

/-- `CertificateSubject::new_from_capi`: each repeated collection is read
only when its pointer is non-null and its count positive; identity entries
whose inner pointer is null are skipped. -/
def CertificateSubject.new_from_capi (cs : ZT_Certificate_Subject) : CertificateSubject where
  timestamp := cs.timestamp
  identities :=
    (readArray cs.identities cs.identityCount).filterMap CertificateIdentity.new_from_capi
  networks := (readArray cs.networks cs.networkCount).map CertificateNetwork.new_from_capi
  certificates := (readArray cs.certificates cs.certificateCount).map copy48
  updateURLs := (readArray cs.updateURLs cs.updateURLCount).map (fun p => cstr_to_string p 126)
  name := CertificateName.new_from_capi cs.name
  uniqueId := cs.uniqueId
  uniqueIdProofSignature := cs.uniqueIdProofSignature

/-! ## Certificate and the engine's decode / encode / sign / verify / CSR calls -/

/-- `Certificate`. -/
structure Certificate where
  serialNo : List Byte
  flags : Nat
  timestamp : Int
  validity : Int × Int
  subject : CertificateSubject
  issuer : Identity
  issuerName : CertificateName
  extendedAttributes : List Byte
  maxPathLength : Nat
  crl : List (List Byte)
  signature : List Byte
  deriving DecidableEq

/-- Report of one engine call `ZT_Certificate_decode`: the
`ZT_CertificateError` it returns (a C `int`) and the certificate pointer it
stores (`none` models null). -/
structure DecodeReport where
  result : Int
  cert : Option Certificate

/-- Report of one buffer-filling engine call (`ZT_Certificate_encode`,
`ZT_Certificate_sign` or `ZT_Certificate_newCSR`): its return code, the
bytes it wrote into the caller's 16384-byte buffer, and the size it stored
through the in/out size pointer. -/
structure BufferReport where
  ret : Int
  written : List Byte
  size : Nat

/-- `CertificateError`: the ten semantic decode/verify outcomes. -/
inductive CertificateError where
  | None
  | HaveNewerCert
  | InvalidFormat
  | InvalidIdentity
  | InvalidPrimarySignature
  | InvalidChain
  | InvalidComponentSignature
  | InvalidUniqueIdProof
  | MissingRequiredFields
  | OutOfValidTimeWindow
  deriving DecidableEq

/-- Modelled from the spec: the numeric `ZT_CertificateError` discriminants
live in `bindings::capi` (not under src/). Success is `0`, `HaveNewerCert`
is `1`, and the failure kinds are the engine's negative codes `-1 .. -8`
in the order of the spec's section 4.5 table. The theorems below depend
only on `0` meaning success and on the codes being pairwise distinct. -/
def CertificateError.discriminant : CertificateError → Int
  | .None => 0
  | .HaveNewerCert => 1
  | .InvalidFormat => -1
  | .InvalidIdentity => -2
  | .InvalidPrimarySignature => -3
  | .InvalidChain => -4
  | .InvalidComponentSignature => -5
  | .InvalidUniqueIdProof => -6
  | .MissingRequiredFields => -7
  | .OutOfValidTimeWindow => -8

/-- The derived `num_traits::FromPrimitive::from_i64` for `CertificateError`:
compare the argument against every variant's discriminant. -/
def CertificateError.from_i64 (n : Int) : Option CertificateError :=
  if n = 0 then some .None
  else if n = 1 then some .HaveNewerCert
  else if n = -1 then some .InvalidFormat
  else if n = -2 then some .InvalidIdentity
  else if n = -3 then some .InvalidPrimarySignature
  else if n = -4 then some .InvalidChain
  else if n = -5 then some .InvalidComponentSignature
  else if n = -6 then some .InvalidUniqueIdProof
  else if n = -7 then some .MissingRequiredFields
  else if n = -8 then some .OutOfValidTimeWindow
  else none

/-- `FromPrimitive::from_u32`: widen the `u32` to `u64` and then reinterpret
as `i64` (value-preserving below `2 ^ 32`), as the `num_traits` default and
derived implementations do. -/
def CertificateError.from_u32 (n : Nat) : Option CertificateError :=
  CertificateError.from_i64 ((n % 2 ^ 32 : Nat) : Int)

/-- The Rust cast `result as u32` applied to a C `int`: reduce modulo
`2 ^ 32` into the unsigned range. -/
def i32_as_u32 (r : Int) : Nat := (r % (2 ^ 32 : Int)).toNat

/-- `Certificate::new_from_bytes(b, verify)`: ask the engine to decode;
a nonzero error code is mapped through `from_u32` with `InvalidFormat` as
the fallback; a null certificate pointer under a success code is
`InvalidFormat`; otherwise the decoded certificate is returned. -/
def Certificate.new_from_bytes (b : List Byte) (verify : Bool)
    (engineDecode : List Byte → Bool → DecodeReport) :
    Except CertificateError Certificate :=
  let r := engineDecode b verify
  if r.result ≠ 0 then
    .error ((CertificateError.from_u32 (i32_as_u32 r.result)).getD .InvalidFormat)
  else
    match r.cert with
    | none => .error .InvalidFormat
    | some c => .ok c

/-- `Certificate::verify`: map the engine's verification code through
`from_u32`, defaulting to `InvalidFormat`. -/
def Certificate.verify (c : Certificate) (engineVerify : Certificate → Int) :
    CertificateError :=
  (CertificateError.from_u32 (i32_as_u32 (engineVerify c))).getD .InvalidFormat

/-- `Certificate::to_bytes`: a 16384-byte scratch buffer is filled by
`ZT_Certificate_encode`; failure is `ErrorInternalNonFatal`, success resizes
the buffer down to the engine-reported size. -/
def Certificate.to_bytes (c : Certificate) (engineEncode : Certificate → BufferReport) :
    Except ResultCode (List Byte) :=
  let r := engineEncode c
  if r.ret ≠ 0 then .error .ErrorInternalNonFatal
  else .ok (resize (resize r.written 16384) r.size)

/-- `Certificate::sign(id)`: an identity without a private key is rejected
with `ErrorBadParameter` before the engine is consulted; an engine failure
is also `ErrorBadParameter`; success resizes the 16384-byte buffer to the
engine-reported size. -/
def Certificate.sign (c : Certificate) (id : Identity)
    (engineSign : Certificate → Identity → BufferReport) :
    Except ResultCode (List Byte) :=
  if !id.hasPrivate then .error .ErrorBadParameter
  else
    let r := engineSign c id
    if r.ret ≠ 0 then .error .ErrorBadParameter
    else .ok (resize (resize r.written 16384) r.size)

/-- `CertificateSubject::new_csr(uid)`: a 16384-byte scratch buffer is
filled by `ZT_Certificate_newCSR`; failure is `ErrorBadParameter`; on
success the whole buffer is returned, with no resize to the engine-reported
`csr_size`. -/
def CertificateSubject.new_csr (s : CertificateSubject)
    (uid : Option CertificateSubjectUniqueIdSecret)
    (engineNewCSR : CertificateSubject → Option CertificateSubjectUniqueIdSecret → BufferReport) :
    Except ResultCode (List Byte) :=
  let r := engineNewCSR s uid
  if r.ret ≠ 0 then .error .ErrorBadParameter
  else .ok (resize r.written 16384)

/-- `Except::is_ok`. -/
def isOkE {ε α : Type} : Except ε α → Bool
  | .ok _ => true
  | .error _ => false

/-- An all-empty `CertificateName`, used in concrete instantiations. -/
def emptyName : CertificateName :=
  CertificateName.mk [] [] [] [] [] [] [] [] [] [] [] []

/-- A subject with empty collections, used in concrete instantiations. -/
def emptySubject : CertificateSubject :=
  CertificateSubject.mk 0 [] [] [] [] emptyName [] []

/-- A blank certificate, used in concrete instantiations. -/
def emptyCert : Certificate :=
  Certificate.mk [] 0 0 (0, 0) emptySubject (Identity.mk false) emptyName [] 0 [] []

/-- An engine-side subject whose four repeated collections are all null
pointers with zero counts. -/
def nullCapiSubject : ZT_Certificate_Subject :=
  ZT_Certificate_Subject.mk 0 none 0 none 0 none 0 none 0
    (CertificateName.to_capi emptyName) [] []

theorem resize_length (l : List Byte) (n : Nat) : (resize l n).length = n := by
  simp [resize]
  omega

theorem hexDigitVal_hexDigitChar : ∀ d : Fin 16, hexDigitVal (hexDigitChar d.val) = some d := by
  decide

theorem hexDecode_hexEncode (bs : List Byte) : hexDecode (hexEncode bs) = some bs := by
  induction bs with
  | nil => rfl
  | cons b rest ih =>
    have hhi : hexDigitVal (hexDigitChar (b.val / 16)) =
        some ⟨b.val / 16, by have := b.isLt; omega⟩ :=
      hexDigitVal_hexDigitChar ⟨b.val / 16, by have := b.isLt; omega⟩
    have hlo : hexDigitVal (hexDigitChar (b.val % 16)) =
        some ⟨b.val % 16, by have := b.isLt; omega⟩ :=
      hexDigitVal_hexDigitChar ⟨b.val % 16, by have := b.isLt; omega⟩
    simp only [hexEncode, hexDecode, hhi, hlo, ih]
    congr 2
    apply Fin.ext
    show b.val / 16 * 16 + b.val % 16 = b.val
    omega

/-- C1: a Name field value longer than 126 bytes serializes into the
zero-initialized 128-byte engine buffer as exactly its first 126 bytes
followed by a null terminator (byte 126 is null, as is the final pad byte
127); an empty value serializes as an immediate null terminator at
position 0 (the buffer stays all zeros). Every field of the struct built
by `to_capi` is exactly such a buffer. -/
theorem C1_name_field_serialization (s : List Byte) (n : CertificateName) :
    (126 < s.length → nameFieldBuffer s = s.take 126 ++ [0, 0])
    ∧ (s.length = 0 → nameFieldBuffer s = List.replicate 128 0)
    ∧ n.to_capi = ZT_Certificate_Name.mk (nameFieldBuffer n.serialNo)
        (nameFieldBuffer n.commonName) (nameFieldBuffer n.country)
        (nameFieldBuffer n.organization) (nameFieldBuffer n.unit)
        (nameFieldBuffer n.locality) (nameFieldBuffer n.province)
        (nameFieldBuffer n.streetAddress) (nameFieldBuffer n.postalCode)
        (nameFieldBuffer n.email) (nameFieldBuffer n.url)
        (nameFieldBuffer n.host) := by
  refine ⟨?_, ?_, rfl⟩
  · intro h
    have hne : ¬ s.length = 0 := by omega
    have hgt : s.length > 126 := h
    have hlen : (s.take 126).length = 126 := by
      simp [List.length_take]
      omega
    unfold nameFieldBuffer str_to_cert_cstr
    simp only [hne, if_false, hgt, if_true, if_pos, if_neg, List.drop_replicate]
    rw [List.set_append, if_neg (by rw [hlen]; omega), hlen]
    congr 1
  · intro h
    unfold nameFieldBuffer str_to_cert_cstr
    simp [h, List.set_replicate_self]

/-- Witness for C1 at a 127-byte value and at the empty value. -/
theorem C1_name_field_serialization_witness :
    nameFieldBuffer (List.replicate 127 1) =
      (List.replicate 127 (1 : Byte)).take 126 ++ [0, 0]
    ∧ nameFieldBuffer [] = List.replicate 128 0 :=
  ⟨(C1_name_field_serialization (List.replicate 127 1) emptyName).1 (by simp),
   (C1_name_field_serialization [] emptyName).2.1 rfl⟩

/-- C2: hex round-trip — for every 48-byte serial number `b`,
`new_from_string (to_string b)` succeeds and returns exactly `b`. -/
theorem C2_serial_hex_round_trip (b : List Byte) (h : b.length = 48) :
    CertificateSerialNo.new_from_string (CertificateSerialNo.to_string b) =
      .ok b := by
  unfold CertificateSerialNo.new_from_string CertificateSerialNo.to_string
  rw [hexDecode_hexEncode]
  unfold CertificateSerialNo.fromSlice CertificateSerialNo.new
  have hnot : ¬ b.length > 48 := by omega
  simp only [hnot, if_false, if_neg, not_false_iff]
  rw [List.take_length, List.drop_replicate, h]
  simp

/-- Witness for C2 at the 48-byte array of `0xab` bytes. -/
theorem C2_serial_hex_round_trip_witness :
    (List.replicate 48 (171 : Byte)).length = 48
    ∧ CertificateSerialNo.new_from_string
        (CertificateSerialNo.to_string (List.replicate 48 (171 : Byte))) =
        .ok (List.replicate 48 (171 : Byte)) :=
  ⟨by decide, C2_serial_hex_round_trip _ (by decide)⟩

/-- C3: the `From<&[u8]>` constructor keeps exactly the first 48 bytes of a
longer slice, zero-pads a shorter one, and always yields 48 bytes (it is
total — it never fails). -/
theorem C3_serial_from_slice_clamps (v : List Byte) :
    (48 < v.length → CertificateSerialNo.fromSlice v = v.take 48)
    ∧ (v.length < 48 →
        CertificateSerialNo.fromSlice v = v ++ List.replicate (48 - v.length) 0)
    ∧ (CertificateSerialNo.fromSlice v).length = 48 := by
  unfold CertificateSerialNo.fromSlice CertificateSerialNo.new
  refine ⟨?_, ?_, ?_⟩
  · intro h
    simp only [h, if_true, if_pos, List.drop_replicate]
    simp
  · intro h
    have hnot : ¬ v.length > 48 := by omega
    simp only [hnot, if_false, if_neg, not_false_iff, List.take_length,
      List.drop_replicate]
  · by_cases h : v.length > 48
    · simp only [h, if_true, if_pos, List.drop_replicate]
      simp
      omega
    · simp only [h, if_false, if_neg, not_false_iff, List.take_length,
        List.drop_replicate]
      simp
      omega

/-- Witness for C3 at a 50-byte slice and at a 3-byte slice. -/
theorem C3_serial_from_slice_clamps_witness :
    CertificateSerialNo.fromSlice (List.replicate 50 1) =
      (List.replicate 50 (1 : Byte)).take 48
    ∧ CertificateSerialNo.fromSlice [1, 2, 3] =
        ([1, 2, 3] : List Byte) ++ List.replicate 45 0
    ∧ (CertificateSerialNo.fromSlice (List.replicate 50 1)).length = 48 :=
  ⟨(C3_serial_from_slice_clamps (List.replicate 50 1)).1 (by decide),
   (C3_serial_from_slice_clamps [1, 2, 3]).2.1 (by decide),
   (C3_serial_from_slice_clamps (List.replicate 50 1)).2.2⟩

/-- C4: `Certificate::sign` with an identity that lacks a private key
returns `ErrorBadParameter` for every certificate and under every possible
engine behavior — the quantification over `engineSign` shows the engine's
signing operation is never consulted. -/
theorem C4_sign_requires_private_key (c : Certificate) (id : Identity)
    (engineSign : Certificate → Identity → BufferReport)
    (h : id.hasPrivate = false) :
    c.sign id engineSign = .error .ErrorBadParameter := by
  simp [Certificate.sign, h]

/-- Witness for C4 at a blank certificate and a keyless identity. -/
theorem C4_sign_requires_private_key_witness :
    (Identity.mk false).hasPrivate = false
    ∧ emptyCert.sign (Identity.mk false) (fun _ _ => BufferReport.mk 0 [] 0) =
        .error .ErrorBadParameter :=
  ⟨rfl, C4_sign_requires_private_key emptyCert (Identity.mk false)
    (fun _ _ => BufferReport.mk 0 [] 0) rfl⟩

theorem i32_cast_eq (r : Int) (h1 : -2147483648 ≤ r) (h2 : r < 2147483648) :
    ((i32_as_u32 r % 2 ^ 32 : Nat) : Int) = if 0 ≤ r then r else r + 4294967296 := by
  have hp : (2 : Int) ^ 32 = 4294967296 := by norm_num
  have hq : (2 : Nat) ^ 32 = 4294967296 := by norm_num
  unfold i32_as_u32
  rw [hp, hq]
  split <;> omega

/-- An unknown i32 engine code (neither a discriminant nor colliding with
one after the `as u32` cast) recovers no variant. -/
theorem from_u32_unknown (r : Int) (h1 : -(2 ^ 31) ≤ r) (h2 : r < 2 ^ 31)
    (hz : r ≠ 0) (ho : r ≠ 1) :
    CertificateError.from_u32 (i32_as_u32 r) = none := by
  have h1' : -2147483648 ≤ r := by
    have e : -(2 ^ 31 : Int) = -2147483648 := by norm_num
    rw [e] at h1
    exact h1
  have h2' : r < 2147483648 := by
    have e : (2 ^ 31 : Int) = 2147483648 := by norm_num
    rw [e] at h2
    exact h2
  unfold CertificateError.from_u32 CertificateError.from_i64
  rw [i32_cast_eq r h1' h2']
  by_cases h0 : 0 ≤ r
  · rw [if_pos h0]
    repeat rw [if_neg (by omega)]
  · rw [if_neg h0]
    repeat rw [if_neg (by omega)]

/-- A nonzero i32 engine code never recovers the success variant. -/
theorem from_u32_not_success (r : Int) (h1 : -(2 ^ 31) ≤ r) (h2 : r < 2 ^ 31)
    (hz : r ≠ 0) :
    CertificateError.from_u32 (i32_as_u32 r) = none ∨
      CertificateError.from_u32 (i32_as_u32 r) = some CertificateError.HaveNewerCert := by
  by_cases ho : r = 1
  · right
    subst ho
    decide
  · left
    exact from_u32_unknown r h1 h2 hz ho

theorem from_i64_zero : CertificateError.from_i64 0 = some CertificateError.None := rfl

theorem from_i64_one :
    CertificateError.from_i64 1 = some CertificateError.HaveNewerCert := rfl

/-- C5: an engine code from decode or verify that matches none of the ten
`CertificateError` discriminants is mapped to `InvalidFormat`, and a
nonzero engine code never yields the success outcome (`Ok` from
`new_from_bytes`, `None` from `verify`). The engine's code is a C `int`,
hence the 32-bit range hypotheses. -/
theorem C5_unknown_engine_codes_fail_safe (b : List Byte) (vf : Bool)
    (engineDecode : List Byte → Bool → DecodeReport)
    (c : Certificate) (engineVerify : Certificate → Int)
    (hd1 : -(2 ^ 31) ≤ (engineDecode b vf).result)
    (hd2 : (engineDecode b vf).result < 2 ^ 31)
    (hv1 : -(2 ^ 31) ≤ engineVerify c) (hv2 : engineVerify c < 2 ^ 31) :
    (CertificateError.from_i64 (engineDecode b vf).result = none →
      Certificate.new_from_bytes b vf engineDecode = .error .InvalidFormat)
    ∧ ((engineDecode b vf).result ≠ 0 →
        isOkE (Certificate.new_from_bytes b vf engineDecode) = false)
    ∧ (CertificateError.from_i64 (engineVerify c) = none →
        c.verify engineVerify = .InvalidFormat)
    ∧ (engineVerify c ≠ 0 → c.verify engineVerify ≠ .None) := by
  refine ⟨?_, ?_, ?_, ?_⟩
  · intro hu
    have hz : (engineDecode b vf).result ≠ 0 := by
      intro h0
      rw [h0, from_i64_zero] at hu
      cases hu
    have h1 : (engineDecode b vf).result ≠ 1 := by
      intro h0
      rw [h0, from_i64_one] at hu
      cases hu
    simp only [Certificate.new_from_bytes]
    rw [if_pos hz, from_u32_unknown _ hd1 hd2 hz h1]
    rfl
  · intro hz
    simp only [Certificate.new_from_bytes]
    rw [if_pos hz]
    rfl
  · intro hu
    have hz : engineVerify c ≠ 0 := by
      intro h0
      rw [h0, from_i64_zero] at hu
      cases hu
    have h1 : engineVerify c ≠ 1 := by
      intro h0
      rw [h0, from_i64_one] at hu
      cases hu
    simp only [Certificate.verify]
    rw [from_u32_unknown _ hv1 hv2 hz h1]
    rfl
  · intro hz
    simp only [Certificate.verify]
    rcases from_u32_not_success _ hv1 hv2 hz with h | h
    · rw [h]
      decide
    · rw [h]
      decide

/-- Witness for C5 at the unknown engine code 7. -/
theorem C5_unknown_engine_codes_fail_safe_witness :
    Certificate.new_from_bytes [] true (fun _ _ => DecodeReport.mk 7 none) =
      .error .InvalidFormat
    ∧ isOkE (Certificate.new_from_bytes [] true (fun _ _ => DecodeReport.mk 7 none)) = false
    ∧ Certificate.verify emptyCert (fun _ => 7) = .InvalidFormat
    ∧ Certificate.verify emptyCert (fun _ => 7) ≠ .None := by
  have h := C5_unknown_engine_codes_fail_safe [] true
    (fun _ _ => DecodeReport.mk 7 none) emptyCert (fun _ => 7)
    (by norm_num) (by norm_num) (by norm_num) (by norm_num)
  exact ⟨h.1 rfl, h.2.1 (by norm_num), h.2.2.1 rfl, h.2.2.2 (by norm_num)⟩

/-- C6: when the engine's key-generation call reports failure (nonzero
return), `CertificateSubjectUniqueIdSecret::new` panics — modelled as
`none`, no secret value is ever returned — instead of surfacing a
recoverable error. -/
theorem C6_keygen_failure_panics (t : CertificateUniqueIdType)
    (engine : CertificateUniqueIdType → KeygenReport)
    (h : (engine t).ret ≠ 0) :
    CertificateSubjectUniqueIdSecret.new t engine = none := by
  simp only [CertificateSubjectUniqueIdSecret.new]
  rw [if_pos h]

/-- Witness for C6 at an engine that reports failure code 1. -/
theorem C6_keygen_failure_panics_witness :
    CertificateSubjectUniqueIdSecret.new .NistP384
      (fun _ => KeygenReport.mk 1 [] [] 0 0) = none :=
  C6_keygen_failure_panics .NistP384 (fun _ => KeygenReport.mk 1 [] [] 0 0)
    (by norm_num)

/-- C7: any secret returned by `CertificateSubjectUniqueIdSecret::new` has
`public` and `private` of exactly the engine-reported sizes, and both
reported sizes are at most the 128-byte maximum — a larger reported size
never produces a secret. -/
theorem C7_keygen_sizes_bounded (t : CertificateUniqueIdType)
    (engine : CertificateUniqueIdType → KeygenReport)
    (s : CertificateSubjectUniqueIdSecret)
    (h : CertificateSubjectUniqueIdSecret.new t engine = some s) :
    s.public.length = (engine t).publicSize
    ∧ s.private_.length = (engine t).privateSize
    ∧ (engine t).publicSize ≤ CERTIFICATE_UNIQUE_ID_CREATE_BUF_SIZE
    ∧ (engine t).privateSize ≤ CERTIFICATE_UNIQUE_ID_CREATE_BUF_SIZE := by
  simp only [CertificateSubjectUniqueIdSecret.new] at h
  by_cases h1 : (engine t).ret ≠ 0
  · rw [if_pos h1] at h
    cases h
  · rw [if_neg h1] at h
    by_cases h2 : CERTIFICATE_UNIQUE_ID_CREATE_BUF_SIZE < (engine t).publicSize ∨
        CERTIFICATE_UNIQUE_ID_CREATE_BUF_SIZE < (engine t).privateSize
    · rw [if_pos h2] at h
      cases h
    · rw [if_neg h2] at h
      push_neg at h2
      injection h with hs
      subst hs
      unfold CERTIFICATE_UNIQUE_ID_CREATE_BUF_SIZE at h2 ⊢
      refine ⟨?_, ?_, h2.1, h2.2⟩
      · simp only [List.length_take, resize_length]
        omega
      · simp only [List.length_take, resize_length]
        omega

/-- Witness for C7 at an engine reporting sizes 64 and 48. -/
theorem C7_keygen_sizes_bounded_witness :
    (List.replicate 64 (1 : Byte)).length = 64
    ∧ (List.replicate 48 (2 : Byte)).length = 48
    ∧ 64 ≤ CERTIFICATE_UNIQUE_ID_CREATE_BUF_SIZE
    ∧ 48 ≤ CERTIFICATE_UNIQUE_ID_CREATE_BUF_SIZE :=
  C7_keygen_sizes_bounded .NistP384
    (fun _ => KeygenReport.mk 0 (List.replicate 64 1) (List.replicate 48 2) 64 48)
    (CertificateSubjectUniqueIdSecret.mk (List.replicate 64 1)
      (List.replicate 48 2) .NistP384)
    (by rfl)

theorem readArray_nil {α : Type} (p : Option (List α)) (count : Nat)
    (h : p = none ∨ count = 0) : readArray p count = [] := by
  unfold readArray
  rcases h with h | h
  · rw [h]
  · cases p
    · rfl
    · simp [h]

/-- C8: decoding an engine-side subject whose repeated collections
(identities, networks, certificates, updateURLs) are null pointers or have
zero counts always succeeds (`new_from_capi` is total) and yields empty
sequences for those collections; an engine-side identity binding whose
identity pointer is null decodes to `None` rather than an error. -/
theorem C8_null_collections_decode_empty (cs : ZT_Certificate_Subject)
    (ci : ZT_Certificate_Identity) :
    ((cs.identities = none ∨ cs.identityCount = 0) →
      (CertificateSubject.new_from_capi cs).identities = [])
    ∧ ((cs.networks = none ∨ cs.networkCount = 0) →
      (CertificateSubject.new_from_capi cs).networks = [])
    ∧ ((cs.certificates = none ∨ cs.certificateCount = 0) →
      (CertificateSubject.new_from_capi cs).certificates = [])
    ∧ ((cs.updateURLs = none ∨ cs.updateURLCount = 0) →
      (CertificateSubject.new_from_capi cs).updateURLs = [])
    ∧ (ci.identity = none → CertificateIdentity.new_from_capi ci = none) := by
  refine ⟨?_, ?_, ?_, ?_, ?_⟩
  · intro h
    simp [CertificateSubject.new_from_capi, readArray_nil _ _ h]
  · intro h
    simp [CertificateSubject.new_from_capi, readArray_nil _ _ h]
  · intro h
    simp [CertificateSubject.new_from_capi, readArray_nil _ _ h]
  · intro h
    simp [CertificateSubject.new_from_capi, readArray_nil _ _ h]
  · intro h
    simp [CertificateIdentity.new_from_capi, h]

/-- Witness for C8 at an all-null engine-side subject and a null identity
binding. -/
theorem C8_null_collections_decode_empty_witness :
    (CertificateSubject.new_from_capi nullCapiSubject).identities = []
    ∧ (CertificateSubject.new_from_capi nullCapiSubject).networks = []
    ∧ (CertificateSubject.new_from_capi nullCapiSubject).certificates = []
    ∧ (CertificateSubject.new_from_capi nullCapiSubject).updateURLs = []
    ∧ CertificateIdentity.new_from_capi (ZT_Certificate_Identity.mk none none) = none := by
  have h := C8_null_collections_decode_empty nullCapiSubject
    (ZT_Certificate_Identity.mk none none)
  exact ⟨h.1 (Or.inl rfl), h.2.1 (Or.inl rfl), h.2.2.1 (Or.inl rfl),
    h.2.2.2.1 (Or.inl rfl), h.2.2.2.2 rfl⟩

/-- C9: a successful `new_csr` always returns the whole 16384-byte buffer —
the result is never trimmed to the engine-reported size — whereas a
successful `to_bytes` resizes its output to the engine-reported size. -/
theorem C9_csr_buffer_not_trimmed (s : CertificateSubject)
    (uid : Option CertificateSubjectUniqueIdSecret)
    (engineNewCSR : CertificateSubject → Option CertificateSubjectUniqueIdSecret → BufferReport)
    (out : List Byte)
    (h : CertificateSubject.new_csr s uid engineNewCSR = .ok out)
    (c : Certificate) (engineEncode : Certificate → BufferReport)
    (out2 : List Byte)
    (h2 : Certificate.to_bytes c engineEncode = .ok out2) :
    out.length = 16384 ∧ out2.length = (engineEncode c).size := by
  constructor
  · simp only [CertificateSubject.new_csr] at h
    by_cases hr : (engineNewCSR s uid).ret ≠ 0
    · rw [if_pos hr] at h
      cases h
    · rw [if_neg hr] at h
      injection h with hout
      rw [← hout, resize_length]
  · simp only [Certificate.to_bytes] at h2
    by_cases hr : (engineEncode c).ret ≠ 0
    · rw [if_pos hr] at h2
      cases h2
    · rw [if_neg hr] at h2
      injection h2 with hout
      rw [← hout, resize_length]

/-- Witness for C9 at engines that report success. -/
theorem C9_csr_buffer_not_trimmed_witness :
    (resize [] 16384).length = 16384 ∧ (resize (resize [] 16384) 0).length = 0 :=
  C9_csr_buffer_not_trimmed emptySubject none (fun _ _ => BufferReport.mk 0 [] 0)
    (resize [] 16384) rfl emptyCert (fun _ => BufferReport.mk 0 [] 0)
    (resize (resize [] 16384) 0) rfl

/-- C10: when the engine's decode reports the success code but stores a
null certificate pointer, `new_from_bytes` returns `InvalidFormat` (it is a
total function — it cannot crash); it returns `Ok` exactly when the engine
reports success and a non-null certificate. -/
theorem C10_decode_null_cert_invalid_format (b : List Byte) (vf : Bool)
    (engineDecode : List Byte → Bool → DecodeReport) :
    ((engineDecode b vf).result = 0 ∧ (engineDecode b vf).cert = none →
      Certificate.new_from_bytes b vf engineDecode = .error .InvalidFormat)
    ∧ (isOkE (Certificate.new_from_bytes b vf engineDecode) = true ↔
        ((engineDecode b vf).result = 0 ∧ (engineDecode b vf).cert.isSome = true)) := by
  constructor
  · rintro ⟨h0, hc⟩
    simp [Certificate.new_from_bytes, h0, hc]
  · constructor
    · intro hok
      by_cases hr : (engineDecode b vf).result ≠ 0
      · simp [Certificate.new_from_bytes, hr, isOkE] at hok
      · push_neg at hr
        cases hc : (engineDecode b vf).cert with
        | none => simp [Certificate.new_from_bytes, hr, hc, isOkE] at hok
        | some c => exact ⟨hr, by simp [hc]⟩
    · rintro ⟨h0, hs⟩
      rcases Option.isSome_iff_exists.mp hs with ⟨c, hc⟩
      simp [Certificate.new_from_bytes, h0, hc, isOkE]

/-- Witness for C10 at an engine that reports success with a null
certificate pointer. -/
theorem C10_decode_null_cert_invalid_format_witness :
    Certificate.new_from_bytes [] false (fun _ _ => DecodeReport.mk 0 none) =
      .error .InvalidFormat
    ∧ (isOkE (Certificate.new_from_bytes [] false (fun _ _ => DecodeReport.mk 0 none)) = true ↔
        ((DecodeReport.mk 0 (none : Option Certificate)).result = 0 ∧
          (DecodeReport.mk 0 (none : Option Certificate)).cert.isSome = true)) := by
  have h := C10_decode_null_cert_invalid_format [] false
    (fun _ _ => DecodeReport.mk 0 none)
  exact ⟨h.1 ⟨rfl, rfl⟩, h.2⟩

end ZTC
